import Mathlib

/-!
Verification development for the CloakShare "safe mirror" pipeline.

The Rust sources embedded here:
  * `src/sensitive_data_detector.rs` — pattern catalog, duty-cycled detection;
  * `src/safe_mirror.rs`             — per-tick orchestrator and redaction cache;
  * `src/main.rs`                    — window-event / render-error dispatch.

Conventions of the embedding:
  * machine integers (`u32`) are modelled as `Nat`; `frame_count`, the one
    `u32` the program repeatedly increments, wraps explicitly modulo `2^32`
    as a release-build `u32` addition does;
  * the `f32` confidence constant `0.8` is modelled as the rational `0.8 : ℚ`
    (it is assigned once and never computed with);
  * byte buffers are `List Nat`;
  * external effects (file save, the tesseract OCR engine, the capture and
    presentation capabilities) are modelled as per-call oracle inputs;
  * `Regex::find_iter` of the Rust `regex` crate is modelled by a
    leftmost-first backtracking matcher over `List Char` with the
    preference semantics of that crate (alternation prefers the left branch,
    quantifiers are greedy, `\b` is a word boundary).
-/

namespace CloakShare

/-! ## Data model (src/sensitive_data_detector.rs lines 5-29) -/

/-- Types of sensitive data we can detect (`enum SensitiveDataType`). -/
inductive SensitiveDataType where
  | Email
  | CreditCard
  | SocialSecurityNumber
  | PhoneNumber
  | ApiKey
  | Password
  | IpAddress
  | Url
  | BankAccount
deriving DecidableEq, Repr

/-- Detected sensitive information with location (`struct SensitiveMatch`).
`confidence` is `f32` in the source; it only ever holds the literal `0.8`,
modelled as a rational. `x, y, width, height` are `u32`, modelled as `Nat`. -/
structure SensitiveMatch where
  data_type : SensitiveDataType
  text : String
  confidence : ℚ
  x : Nat
  y : Nat
  width : Nat
  height : Nat
deriving DecidableEq, Repr

/-! ## Regex engine

A shallow embedding of the fragment of the Rust `regex` crate used by
`build_patterns`: character classes, concatenation, alternation (left branch
preferred), greedy `*` / `+` / `?` / bounded repetition, and the word
boundary `\b`.  A match attempt at a position returns the list of all
possible `(consumed, lastChar, rest)` outcomes in the crate's preference
order; the overall match taken is the head of that list (leftmost-first
semantics).  `\b` needs one character of left context, so the matcher
threads the previously consumed character (`Option Char`). -/

inductive Regex where
  | eps : Regex
  | cls : (Char → Bool) → Regex
  | seqr : Regex → Regex → Regex
  | alt : Regex → Regex → Regex
  | star : Regex → Regex
  | wordB : Regex

/-- `\w` of the regex crate restricted to ASCII: letters, digits, underscore. -/
def isWordChar (c : Char) : Bool := c.isAlphanum || c == '_'

/-- Does a word boundary `\b` hold between left context `prev` and the
remaining input `s`? -/
def atWordBoundary (prev : Option Char) (s : List Char) : Bool :=
  let a := match prev with
    | none => false
    | some c => isWordChar c
  let b := match s with
    | [] => false
    | c :: _ => isWordChar c
  a != b

/-- One backtracking outcome: characters consumed, new left context,
remaining input. -/
abbrev MatchOutcome := List Char × Option Char × List Char

/-- All outcomes of matching `r` against `s` with left context `p`, in
preference order.  `rec` is the continuation used for another iteration of a
`star` (tied one fuel level lower by `mstep`); a `star` iteration must
consume at least one character, mirroring the regex crate's refusal to loop
on empty sub-matches. -/
def mstepStep (rec : Regex → Option Char → List Char → List MatchOutcome) :
    Regex → Option Char → List Char → List MatchOutcome
  | .eps, p, s => [([], p, s)]
  | .cls _, _, [] => []
  | .cls f, _, c :: rest => if f c then [([c], some c, rest)] else []
  | .seqr r1 r2, p, s =>
      (mstepStep rec r1 p s).flatMap (fun t =>
        (mstepStep rec r2 t.2.1 t.2.2).map (fun u => (t.1 ++ u.1, u.2.1, u.2.2)))
  | .alt r1 r2, p, s => mstepStep rec r1 p s ++ mstepStep rec r2 p s
  | .star r, p, s =>
      ((mstepStep rec r p s).filter (fun t => !t.1.isEmpty)).flatMap
        (fun t => (rec (.star r) t.2.1 t.2.2).map
          (fun u => (t.1 ++ u.1, u.2.1, u.2.2)))
      ++ [([], p, s)]
  | .wordB, p, s => if atWordBoundary p s then [([], p, s)] else []

/-- Fueled matcher; each `star` iteration consumes one unit of fuel together
with at least one input character, so fuel `s.length + 1` is always enough. -/
def mstep : Nat → Regex → Option Char → List Char → List MatchOutcome
  | 0, r, p, s => mstepStep (fun _ _ _ => []) r p s
  | n + 1, r, p, s => mstepStep (mstep n) r p s

/-- The preferred (leftmost-first) match of `r` at the current position. -/
def firstMatch (r : Regex) (p : Option Char) (s : List Char) : Option MatchOutcome :=
  (mstep (s.length + 1) r p s).head?

/-- `Regex::find_iter` scan: at each position try the preferred match; on
success emit `(start, matched text)` and resume after it, otherwise advance
one character.  An empty match advances one character as well (the regex
crate's empty-match bump; unreachable for the patterns below). -/
def scanGo : Nat → Regex → Option Char → List Char → Nat → List (Nat × List Char)
  | 0, _, _, _, _ => []
  | n + 1, r, p, s, pos =>
    match firstMatch r p s with
    | some t =>
      match t.1 with
      | [] =>
        match s with
        | [] => [(pos, [])]
        | c :: tail => (pos, []) :: scanGo n r (some c) tail (pos + 1)
      | c0 :: cs => (pos, c0 :: cs) :: scanGo n r t.2.1 t.2.2 (pos + (c0 :: cs).length)
    | none =>
      match s with
      | [] => []
      | c :: tail => scanGo n r (some c) tail (pos + 1)

/-- All non-overlapping leftmost-first matches of `r` in `text`, as
`(start position, matched text)` pairs (`find_iter`). -/
def find_iter (r : Regex) (text : List Char) : List (Nat × List Char) :=
  scanGo (text.length + 1) r none text 0

/-! ### Pattern construction helpers -/

/-- Single literal character. -/
def chr (c : Char) : Regex := .cls (fun x => x == c)

/-- Literal string. -/
def lit : List Char → Regex
  | [] => .eps
  | c :: cs => .seqr (chr c) (lit cs)

/-- `r?` (greedy: prefers matching). -/
def opt (r : Regex) : Regex := .alt r .eps

/-- `r+`. -/
def plus (r : Regex) : Regex := .seqr r (.star r)

/-- `r{n}`. -/
def repExact : Nat → Regex → Regex
  | 0, _ => .eps
  | n + 1, r => .seqr r (repExact n r)

/-- `r{0,n}` (greedy). -/
def repUpTo : Nat → Regex → Regex
  | 0, _ => .eps
  | n + 1, r => .alt (.seqr r (repUpTo n r)) .eps

/-- `r{n,}`. -/
def repAtLeast (n : Nat) (r : Regex) : Regex := .seqr (repExact n r) (.star r)

/-- `r{n,m}`. -/
def repRange (n m : Nat) (r : Regex) : Regex := .seqr (repExact n r) (repUpTo (m - n) r)

/-- Concatenation of a list of regexes. -/
def cat : List Regex → Regex
  | [] => .eps
  | [r] => r
  | r :: rs => .seqr r (cat rs)

/-- `\d` / `[0-9]`. -/
def digit : Regex := .cls Char.isDigit

/-- `\s` (ASCII whitespace as matched by the regex crate). -/
def isSpaceChar (c : Char) : Bool :=
  c == ' ' || c == '\t' || c == '\n' || c == '\r' || c == '\x0b' || c == '\x0c'

/-! ### The pattern catalog (`build_patterns`, lines 49-93) -/

/-- `[A-Za-z0-9._%+-]` (local part of an email). -/
def emailLocalChar (c : Char) : Bool :=
  c.isAlphanum || c == '.' || c == '_' || c == '%' || c == '+' || c == '-'

/-- `[A-Za-z0-9.-]` (domain of an email). -/
def emailDomainChar (c : Char) : Bool := c.isAlphanum || c == '.' || c == '-'

/-- `[A-Z|a-z]` (note: the source class literally includes the bar). -/
def emailTldChar (c : Char) : Bool := c.isAlpha || c == '|'

/-- `\b[A-Za-z0-9._%+-]+@[A-Za-z0-9.-]+\.[A-Z|a-z]{2,}\b` -/
def emailRegex : Regex :=
  cat [.wordB, plus (.cls emailLocalChar), chr '@', plus (.cls emailDomainChar),
       chr '.', repAtLeast 2 (.cls emailTldChar), .wordB]

/-- `[-\s]` -/
def dashSpaceChar (c : Char) : Bool := c == '-' || isSpaceChar c

/-- `\b(?:\d{4}[-\s]?){3}\d{1,7}\b` -/
def creditCardRegex : Regex :=
  cat [.wordB, repExact 3 (.seqr (repExact 4 digit) (opt (.cls dashSpaceChar))),
       repRange 1 7 digit, .wordB]

/-- `\b\d{3}-\d{2}-\d{4}\b` -/
def ssnRegex : Regex :=
  cat [.wordB, repExact 3 digit, chr '-', repExact 2 digit, chr '-',
       repExact 4 digit, .wordB]

/-- `[-.\s]` -/
def phoneSepChar (c : Char) : Bool := c == '-' || c == '.' || isSpaceChar c

/-- `\b(?:\+?1[-.\s]?)?(?:\(?[0-9]{3}\)?[-.\s]?[0-9]{3}[-.\s]?[0-9]{4})\b` -/
def phoneRegex : Regex :=
  cat [.wordB,
       opt (cat [opt (chr '+'), chr '1', opt (.cls phoneSepChar)]),
       opt (chr '('), repExact 3 digit, opt (chr ')'), opt (.cls phoneSepChar),
       repExact 3 digit, opt (.cls phoneSepChar), repExact 4 digit, .wordB]

/-- `\b(?:sk_|pk_|api_|key_|token_)[A-Za-z0-9]{20,}\b` -/
def apiKeyRegex : Regex :=
  cat [.wordB,
       .alt (lit "sk_".data) (.alt (lit "pk_".data) (.alt (lit "api_".data)
         (.alt (lit "key_".data) (lit "token_".data)))),
       repAtLeast 20 (.cls Char.isAlphanum), .wordB]

/-- One IPv4 octet: `(?:25[0-5]|2[0-4][0-9]|[01]?[0-9][0-9]?)` -/
def ipOctet : Regex :=
  .alt (.seqr (lit "25".data) (.cls (fun c => decide ('0' ≤ c) && decide (c ≤ '5'))))
    (.alt (cat [chr '2', .cls (fun c => decide ('0' ≤ c) && decide (c ≤ '4')), digit])
      (cat [opt (.cls (fun c => c == '0' || c == '1')), digit, opt digit]))

/-- `\b(?:(?:25[0-5]|2[0-4][0-9]|[01]?[0-9][0-9]?)\.){3}(?:25[0-5]|2[0-4][0-9]|[01]?[0-9][0-9]?)\b` -/
def ipRegex : Regex :=
  cat [.wordB, repExact 3 (.seqr ipOctet (chr '.')), ipOctet, .wordB]

/-- `\b(?:https?|ftp|ssh)://[^\s]+\b` -/
def urlRegex : Regex :=
  cat [.wordB,
       .alt (.seqr (lit "http".data) (opt (chr 's'))) (.alt (lit "ftp".data) (lit "ssh".data)),
       lit "://".data, plus (.cls (fun c => !isSpaceChar c)), .wordB]

/-- `\b\d{8,17}\b` -/
def bankAccountRegex : Regex :=
  cat [.wordB, repRange 8 17 digit, .wordB]

/-- `SensitiveDataDetector::build_patterns` (lines 49-93): the ordered
pattern catalog.  Every `Regex::new` in the source is given a valid pattern,
so every `if let Ok` pushes its pair. -/
def build_patterns : List (SensitiveDataType × Regex) :=
  [(.Email, emailRegex),
   (.CreditCard, creditCardRegex),
   (.SocialSecurityNumber, ssnRegex),
   (.PhoneNumber, phoneRegex),
   (.ApiKey, apiKeyRegex),
   (.IpAddress, ipRegex),
   (.Url, urlRegex),
   (.BankAccount, bankAccountRegex)]

/-- The matches one `(data_type, pattern)` catalog entry contributes for a
given transcript (the body of the `for (data_type, pattern)` loop,
lines 149-169): one `SensitiveMatch` per `find_iter` match, with the literal
confidence `0.8` and the zero rectangle of the source (`x: 0, y: 0,
width: 0, height: 0` — the TODO at line 158). -/
def matchesFor (text : List Char) (pr : SensitiveDataType × Regex) : List SensitiveMatch :=
  (find_iter pr.2 text).map (fun q =>
    { data_type := pr.1, text := String.mk q.2, confidence := 0.8,
      x := 0, y := 0, width := 0, height := 0 })

/-- The pattern-matching stage of `detect_sensitive_data` (lines 149-171):
apply every catalog pattern, in catalog order, to the extracted text. -/
def detectText (text : List Char) : List SensitiveMatch :=
  build_patterns.flatMap (matchesFor text)

/-! ## Detector state and `detect_sensitive_data` (lines 96-172)

The only cross-call state of `SensitiveDataDetector` that
`detect_sensitive_data` reads or writes is `frame_count` (the `tesseract`
and `patterns` fields are immutable after `new`; the patterns are the fixed
catalog above).  The external effects of an OCR tick — saving the PNG to
disk and running the tesseract engine — are modelled as per-call oracle
inputs `OcrEnv`. -/

/-- `2^32`: the modulus of `u32` arithmetic. -/
def u32Mod : Nat := 4294967296

/-- The cross-call state of the detector.  `frame_count` is a `u32` in the
source (`frame_count: u32`); it is kept below `2^32` by the wrapping
increment in `detect_sensitive_data`. -/
structure DetectorState where
  frame_count : Nat
deriving DecidableEq, Repr

/-- Outcome of the file-system save in `save_grayscale_as_png`
(`img_buffer.save(path)`); the buffer-size check of
`ImageBuffer::from_raw` is deterministic and modelled in the function
itself. -/
inductive FsOutcome where
  | ok
  | fail
deriving DecidableEq, Repr

/-- Outcome of the tesseract calls of one OCR tick: `Tesseract::new`,
`set_image`, `get_text`, or the extracted text on success. -/
inductive TessOutcome where
  | initFail
  | setImageFail
  | getTextFail
  | extractedText (t : List Char)
deriving DecidableEq, Repr

/-- The external world consulted by one OCR-tick of
`detect_sensitive_data`. -/
structure OcrEnv where
  fsave : FsOutcome
  tess : TessOutcome
deriving DecidableEq, Repr

/-- `rgba_to_grayscale` (lines 175-188): luma of every complete 4-byte RGBA
chunk (`chunks_exact(4)` drops an incomplete tail).  The `f32` expression
`0.299*r + 0.587*g + 0.114*b` truncated to `u8` is modelled by exact
rational arithmetic; for `r, g, b ≤ 255` the value is at most 255. -/
def luma (r g b : Nat) : Nat := (299 * r + 587 * g + 114 * b) / 1000

def rgba_to_grayscale : List Nat → List Nat
  | r :: g :: b :: _ :: rest => luma r g b :: rgba_to_grayscale rest
  | _ => []

/-- `save_grayscale_as_png` (lines 191-199): `ImageBuffer::from_raw` fails
when the buffer holds fewer than `width * height` samples (an oversized
buffer is accepted); otherwise the save succeeds or fails with the file
system. -/
def save_grayscale_as_png (grayscale : List Nat) (width height : Nat)
    (fs : FsOutcome) : Except String Unit :=
  if grayscale.length < width * height then .error "Failed to create image buffer"
  else
    match fs with
    | .ok => .ok ()
    | .fail => .error "Failed to save PNG"

/-- `detect_sensitive_data` (lines 96-172).  Increments the `u32`
`frame_count` (wrapping modulo `2^32`), returns the empty match list except
on every call where the wrapped counter is divisible by 60; on an OCR call
it converts the frame to grayscale, saves it, runs tesseract, and applies
the pattern catalog to the extracted text — every failure path returns the
empty list. -/
def detect_sensitive_data (st : DetectorState) (rgba_buffer : List Nat)
    (width height : Nat) (env : OcrEnv) : DetectorState × List SensitiveMatch :=
  let fc := (st.frame_count + 1) % u32Mod
  let st' : DetectorState := ⟨fc⟩
  if fc % 60 ≠ 0 then (st', [])
  else
    let grayscale := rgba_to_grayscale rgba_buffer
    match save_grayscale_as_png grayscale width height env.fsave with
    | .error _ => (st', [])
    | .ok _ =>
      match env.tess with
      | .initFail => (st', [])
      | .setImageFail => (st', [])
      | .getTextFail => (st', [])
      | .extractedText t => (st', detectText t)

/-- One call of a sequence of `detect_sensitive_data` calls: its frame
buffer, the resolution passed for it, and the external OCR world. -/
structure CallInput where
  rgba : List Nat
  width : Nat
  height : Nat
  env : OcrEnv
deriving DecidableEq, Repr

/-- Detector state after a sequence of `detect_sensitive_data` calls. -/
def runDetectCalls : DetectorState → List CallInput → DetectorState
  | st, [] => st
  | st, c :: rest =>
      runDetectCalls (detect_sensitive_data st c.rgba c.width c.height c.env).1 rest

/-! ## Redaction applier

`SafeMirror::update_and_render` calls `detector.apply_redaction(&mut
texture_data, width, height, &matches)` (safe_mirror.rs line 115), but the
definition of `apply_redaction` is not among the provided sources. -/

/-- The fixed opaque block color, per byte of an RGBA8 pixel: opaque black
(alpha byte 255, color bytes 0). -/
def blockByte (i : Nat) : Nat := if i % 4 == 3 then 255 else 0

/-- Modelled from the spec: does byte `i` of the RGBA8 buffer belong to a
pixel covered by the rectangle of `m` after clamping to the
`width × height` frame bounds (spec §4.4: "clamp its rectangle to frame
bounds")?  Byte `i` belongs to pixel `i / 4`, at column `(i / 4) % width`
and row `(i / 4) / width`. -/
def coveredByte (m : SensitiveMatch) (width height i : Nat) : Bool :=
  if width == 0 then false
  else
    let p := i / 4
    let x := p % width
    let y := p / width
    decide (min m.x width ≤ x) && decide (x < min (m.x + m.width) width) &&
      decide (min m.y height ≤ y) && decide (y < min (m.y + m.height) height)

/-- Modelled from the spec: paint one match's clamped rectangle, overwriting
every covered pixel with the fixed opaque block color (spec §4.4);
`i` is the byte offset of the head of the buffer. -/
def paintFrom (m : SensitiveMatch) (width height : Nat) : Nat → List Nat → List Nat
  | _, [] => []
  | i, b :: rest =>
      (if coveredByte m width height i then blockByte i else b)
        :: paintFrom m width height (i + 1) rest

/-- Modelled from the spec: `SensitiveDataDetector::apply_redaction`, whose
definition is missing from the provided sources (only its call site in
`SafeMirror::update_and_render` is present).  Per spec §4.4: "For every
Match, clamp its rectangle to frame bounds, then overwrite every covered
pixel with a fixed opaque block color." -/
def apply_redaction (buffer : List Nat) (width height : Nat)
    (ms : List SensitiveMatch) : List Nat :=
  ms.foldl (fun buf m => paintFrom m width height 0 buf) buffer

/-! ## The orchestrator: `SafeMirror` (src/safe_mirror.rs)

State that `update_and_render` reads or writes: the optional detector (its
`frame_count`), the redaction cache, and — standing in for the
`gpu_renderer` collaborator — the fixed buffer its deterministic
`create_test_pattern` produces.  Per-tick external inputs (latest captured
frame, resolution query result, OCR world) form a `TickInput`. -/

structure DisplayResolution where
  width : Nat
  height : Nat
deriving DecidableEq, Repr

structure MirrorState where
  sensitive_detector : Option DetectorState
  cached_sensitive_matches : List SensitiveMatch
  test_pattern : List Nat
deriving DecidableEq, Repr

/-- Per-tick inputs from the external collaborators:
`screen_capture.get_latest_frame()`, `get_display_resolution()`, and the
OCR world of a potential detection. -/
structure TickInput where
  frame : Option (List Nat)
  resolution : Option DisplayResolution
  env : OcrEnv
deriving DecidableEq, Repr

/-- `self.screen_capture.get_latest_frame().unwrap_or_else(|| self.gpu_renderer.create_test_pattern())`
(safe_mirror.rs lines 81-84). -/
def acquiredTexture (st : MirrorState) (inp : TickInput) : List Nat :=
  inp.frame.getD st.test_pattern

/-- `get_display_resolution().unwrap_or_else(|_| DisplayResolution { width: 1920, height: 1080 })`
(safe_mirror.rs lines 89-95). -/
def resolutionUsed (inp : TickInput) : DisplayResolution :=
  inp.resolution.getD ⟨1920, 1080⟩

/-- The `if let Some(ref mut detector)` detection step of one tick
(safe_mirror.rs lines 98-100): the new detector state and `new_matches`. -/
def detector_step (st : MirrorState) (inp : TickInput) :
    Option DetectorState × List SensitiveMatch :=
  match st.sensitive_detector with
  | some d =>
      let r := detect_sensitive_data d (acquiredTexture st inp)
        (resolutionUsed inp).width (resolutionUsed inp).height inp.env
      (some r.1, r.2)
  | none => (none, [])

/-- `new_matches` of one tick. -/
def tick_new_matches (st : MirrorState) (inp : TickInput) : List SensitiveMatch :=
  (detector_step st inp).2

/-- `SafeMirror::update_and_render` (lines 79-127), up to the hand-off to
the presentation capability: returns the successor state and the buffer
passed to `gpu_renderer.update_texture`.  Cache update (lines 102-110):
replace only when `new_matches` is non-empty.  Redaction (lines 112-122):
applied whenever the (updated) cache is non-empty and the detector exists. -/
def update_and_render (st : MirrorState) (inp : TickInput) :
    MirrorState × List Nat :=
  let texture_data := acquiredTexture st inp
  let resolution := resolutionUsed inp
  let ds := detector_step st inp
  let cached := if ds.2.isEmpty then st.cached_sensitive_matches else ds.2
  let texture' :=
    if cached.isEmpty then texture_data
    else
      match st.sensitive_detector with
      | some _ => apply_redaction texture_data resolution.width resolution.height cached
      | none => texture_data
  (⟨ds.1, cached, st.test_pattern⟩, texture')

/-- The state reached after a sequence of render ticks. -/
def runTicks : MirrorState → List TickInput → MirrorState
  | st, [] => st
  | st, inp :: rest => runTicks (update_and_render st inp).1 rest

/-- The buffers handed to the presentation capability along a run. -/
def runOutputs : MirrorState → List TickInput → List (List Nat)
  | _, [] => []
  | st, inp :: rest =>
      (update_and_render st inp).2 :: runOutputs (update_and_render st inp).1 rest

/-- Along the run, every tick's detection result (`new_matches`) was empty —
detection did not run, ran and found nothing, or a per-tick failure path
(no frame, no geometry, extraction failure) yielded nothing. -/
def allDetectionsEmpty : MirrorState → List TickInput → Bool
  | _, [] => true
  | st, inp :: rest =>
      (tick_new_matches st inp).isEmpty && allDetectionsEmpty (update_and_render st inp).1 rest

/-- The state `SafeMirror::new` returns (lines 64-69): the given detector
(or `None` when its initialization failed), an empty cache, and the
renderer's fixed test pattern. -/
def initialMirror (d : Option DetectorState) (tp : List Nat) : MirrorState :=
  ⟨d, [], tp⟩

/-! ## The event dispatch of `App::window_event` (src/main.rs lines 71-115) -/

/-- The result of `safe_mirror.update_and_render()` as matched by
`App::window_event`: `Ok`, `Err(SurfaceError::Lost)`,
`Err(SurfaceError::OutOfMemory)`, or any other error. -/
inductive RenderResult where
  | ok
  | surfaceLost
  | outOfMemory
  | otherError
deriving DecidableEq, Repr

/-- The window events distinguished by `App::window_event`. -/
inductive WEvent where
  | closeRequested
  | resized (w h : Nat)
  | redrawRequested
  | otherEvent
deriving DecidableEq, Repr

/-- What one `window_event` call did: the argument of a `safe_mirror.resize`
call if any, whether `event_loop.exit()` was called, whether an error was
only logged, and whether `window.request_redraw()` was called. -/
structure EventEffects where
  resizeCalled : Option (Nat × Nat)
  exitRequested : Bool
  errorLogged : Bool
  redrawRequested : Bool
deriving DecidableEq, Repr

/-- The `App` context `window_event` runs in: whether `self.safe_mirror` and
`self.window` are `Some`, and the current surface size
(`safe_mirror.size()`). -/
structure WindowCtx where
  hasMirror : Bool
  hasWindow : Bool
  currentSize : Nat × Nat
deriving DecidableEq, Repr

/-- `App::window_event` (main.rs lines 71-115).  The `renderResult` oracle
is consulted only by the `RedrawRequested` arm.  `window.request_redraw()`
runs after the match, whenever the window exists. -/
def window_event (ctx : WindowCtx) (ev : WEvent) (renderResult : RenderResult) :
    EventEffects :=
  let e0 : EventEffects := ⟨none, false, false, false⟩
  let e1 :=
    if ctx.hasMirror then
      match ev with
      | .closeRequested => { e0 with exitRequested := true }
      | .resized w h => { e0 with resizeCalled := some (w, h) }
      | .redrawRequested =>
        match renderResult with
        | .ok => e0
        | .surfaceLost => { e0 with resizeCalled := some ctx.currentSize }
        | .outOfMemory => { e0 with exitRequested := true }
        | .otherError => { e0 with errorLogged := true }
      | .otherEvent => e0
    else e0
  if ctx.hasWindow then { e1 with redrawRequested := true } else e1

/-! ## Helper lemmas -/

/-- Both branches of `detect_sensitive_data` store the wrapped incremented
counter. -/
theorem detect_sensitive_data_fst (st : DetectorState) (rgba : List Nat)
    (w h : Nat) (env : OcrEnv) :
    (detect_sensitive_data st rgba w h env).1 = ⟨(st.frame_count + 1) % u32Mod⟩ := by
  unfold detect_sensitive_data
  dsimp only
  split
  · rfl
  · split
    · rfl
    · split <;> rfl

/-- The cache after one tick, as a function of `new_matches`. -/
theorem update_cached_eq (st : MirrorState) (inp : TickInput) :
    (update_and_render st inp).1.cached_sensitive_matches =
      if (tick_new_matches st inp).isEmpty then st.cached_sensitive_matches
      else tick_new_matches st inp := rfl

/-- A tick never changes the stored test pattern. -/
theorem update_test_pattern_eq (st : MirrorState) (inp : TickInput) :
    (update_and_render st inp).1.test_pattern = st.test_pattern := rfl

/-- Sample state used by concrete witnesses: a live detector at count 0, one
cached match, an empty test pattern. -/
def sampleCachedMatch : SensitiveMatch :=
  ⟨.Email, "a@b.co", 0.8, 0, 0, 0, 0⟩

def sampleMirror : MirrorState :=
  ⟨some ⟨0⟩, [sampleCachedMatch], []⟩

/-- Two failure-path ticks: no frame and no geometry with a file-system
failure, then a frame with a failing OCR engine.  Neither is a 60th
detector call, and every failure path yields an empty detection result. -/
def sampleFailureTicks : List TickInput :=
  [⟨none, none, ⟨.fail, .initFail⟩⟩,
   ⟨some [1, 2, 3, 4], some ⟨1, 1⟩, ⟨.ok, .getTextFail⟩⟩]

/-! ## C2 — wholesale cache replacement -/

/-- C2: the cache update step of one tick: a non-empty detection result
replaces the cached `MatchSet` wholesale (no merging or diffing with the
previous contents); an empty detection result leaves the cache exactly as
it was before the tick (src/safe_mirror.rs lines 102-110). -/
theorem cache_update_wholesale_or_untouched (st : MirrorState) (inp : TickInput) :
    (tick_new_matches st inp ≠ [] →
       (update_and_render st inp).1.cached_sensitive_matches = tick_new_matches st inp)
  ∧ (tick_new_matches st inp = [] →
       (update_and_render st inp).1.cached_sensitive_matches = st.cached_sensitive_matches) := by
  constructor
  · intro h
    rw [update_cached_eq, if_neg]
    simpa [List.isEmpty_iff] using h
  · intro h
    rw [update_cached_eq, if_pos]
    simp [List.isEmpty_iff, h]

theorem cache_update_wholesale_or_untouched_witness :
    (tick_new_matches sampleMirror ⟨none, none, ⟨.fail, .initFail⟩⟩ = [] ∧
      (update_and_render sampleMirror ⟨none, none, ⟨.fail, .initFail⟩⟩).1.cached_sensitive_matches
        = sampleMirror.cached_sensitive_matches) :=
  ⟨by decide,
   (cache_update_wholesale_or_untouched sampleMirror ⟨none, none, ⟨.fail, .initFail⟩⟩).2 (by decide)⟩

/-! ## C1 — cache persistence across empty ticks -/

/-- C1: once the cache holds a `MatchSet`, its contents remain exactly equal
across every subsequent tick whose detection result is empty — including
ticks where detection did not run, ran and found nothing, or a per-tick
failure path occurred (all of which make `new_matches` empty) — until a
non-empty detection result replaces them; no tick ever clears the cache or
removes an entry otherwise. -/
theorem cache_monotone_across_empty_ticks (st : MirrorState) (L : List TickInput)
    (hempty : allDetectionsEmpty st L = true) :
    (runTicks st L).cached_sensitive_matches = st.cached_sensitive_matches := by
  induction L generalizing st with
  | nil => rfl
  | cons inp rest ih =>
    unfold allDetectionsEmpty at hempty
    rw [Bool.and_eq_true] at hempty
    unfold runTicks
    rw [ih _ hempty.2, update_cached_eq, if_pos hempty.1]

theorem cache_monotone_across_empty_ticks_witness :
    (allDetectionsEmpty sampleMirror sampleFailureTicks = true ∧
      (runTicks sampleMirror sampleFailureTicks).cached_sensitive_matches
        = [sampleCachedMatch]) :=
  ⟨by decide, cache_monotone_across_empty_ticks sampleMirror sampleFailureTicks (by decide)⟩

/-! ## C3 — duty-cycle: exact for the wrapped counter -/

/-- The wrapped counter after a sequence of calls: starting below `2^32`,
after the calls it reads `(start + number of calls) % 2^32`. -/
theorem runDetectCalls_frame_count (cs : List CallInput) :
    ∀ st : DetectorState, st.frame_count < u32Mod →
      (runDetectCalls st cs).frame_count = (st.frame_count + cs.length) % u32Mod := by
  induction cs with
  | nil =>
    intro st hlt
    show st.frame_count = (st.frame_count + 0) % u32Mod
    rw [Nat.add_zero, Nat.mod_eq_of_lt hlt]
  | cons c rest ih =>
    intro st hlt
    show (runDetectCalls (detect_sensitive_data st c.rgba c.width c.height c.env).1
        rest).frame_count = _
    rw [detect_sensitive_data_fst,
      ih ⟨(st.frame_count + 1) % u32Mod⟩ (Nat.mod_lt _ (by decide))]
    show ((st.frame_count + 1) % u32Mod + rest.length) % u32Mod
        = (st.frame_count + (rest.length + 1)) % u32Mod
    rw [Nat.mod_add_mod]
    congr 1
    omega

/-- The call of a detection tick used around the `u32` wrap: a well-formed
1×1 frame and a fully successful OCR world extracting `"a@b.co"`. -/
def wrapCallInput : CallInput :=
  ⟨[0, 0, 0, 0], 1, 1, ⟨.ok, .extractedText "a@b.co".data⟩⟩

/-- C3 counterexample: the claim's iff fails at call `k = 2^32`.
`frame_count` is a wrapping `u32`: after `2^32 - 1` identical calls from a
fresh detector the counter reads `2^32 - 1`, so the `2^32`-th call wraps it
to `0` and `0 % 60 = 0` makes detection run — it returns a non-empty
`MatchSet` — even though `k % 60 = 2^32 % 60 = 16 ≠ 0`, where the claim
demands an empty `MatchSet` with no extraction attempted. -/
theorem duty_cycle_wrap_counterexample :
    4294967296 % 60 ≠ 0 ∧
    (runDetectCalls ⟨0⟩ (List.replicate (4294967296 - 1) wrapCallInput)).frame_count
      = 4294967296 - 1 ∧
    (detect_sensitive_data
        (runDetectCalls ⟨0⟩ (List.replicate (4294967296 - 1) wrapCallInput))
        wrapCallInput.rgba wrapCallInput.width wrapCallInput.height wrapCallInput.env).2
      ≠ [] := by
  have hfc : (runDetectCalls ⟨0⟩ (List.replicate (4294967296 - 1) wrapCallInput)).frame_count
      = 4294967296 - 1 := by
    rw [runDetectCalls_frame_count _ ⟨0⟩ (by decide), List.length_replicate]
    decide
  refine ⟨by decide, hfc, ?_⟩
  generalize hst : runDetectCalls ⟨0⟩ (List.replicate (4294967296 - 1) wrapCallInput)
      = st at hfc ⊢
  obtain ⟨fc⟩ := st
  have hfc2 : fc = 4294967296 - 1 := hfc
  subst hfc2
  decide

/-- C3 (amended): duty-cycle exactness holds for the wrapped `u32` counter:
starting from a fresh detector, the counter after `k` calls is
`k % 2^32`, so the `k`-th call (counting from 1) performs text extraction
and pattern detection if and only if `(k % 2^32) % 60 = 0` — which
coincides with `k % 60 = 0` for every `k < 2^32`.  A call whose wrapped
counter test fails returns the empty match list as a constant independent
of the frame, the geometry and the OCR world — extraction is not
attempted.  A call whose test succeeds (with a frame whose grayscale
conversion has the advertised size) runs extraction and applies pattern
detection to the extracted text (src/sensitive_data_detector.rs lines
96-104). -/
theorem duty_cycle_every_60th_call_wrapped :
    (∀ (st : DetectorState) (cs : List CallInput), st.frame_count < u32Mod →
       (runDetectCalls st cs).frame_count = (st.frame_count + cs.length) % u32Mod)
  ∧ (∀ (st : DetectorState) (rgba : List Nat) (w h : Nat) (env : OcrEnv),
       ((st.frame_count + 1) % u32Mod) % 60 ≠ 0 →
       detect_sensitive_data st rgba w h env = (⟨(st.frame_count + 1) % u32Mod⟩, []))
  ∧ (∀ (st : DetectorState) (rgba : List Nat) (w h : Nat) (t : List Char),
       ((st.frame_count + 1) % u32Mod) % 60 = 0 →
       (rgba_to_grayscale rgba).length = w * h →
       detect_sensitive_data st rgba w h ⟨.ok, .extractedText t⟩
         = (⟨(st.frame_count + 1) % u32Mod⟩, detectText t)) := by
  refine ⟨fun st cs hlt => runDetectCalls_frame_count cs st hlt, ?_, ?_⟩
  · intro st rgba w h env hmod
    unfold detect_sensitive_data
    rw [if_pos hmod]
  · intro st rgba w h t hmod hlen
    unfold detect_sensitive_data
    rw [if_neg (by omega)]
    dsimp only
    unfold save_grayscale_as_png
    rw [if_neg (by omega)]

theorem duty_cycle_every_60th_call_wrapped_witness :
    (((0 : Nat) < u32Mod ∧
       (runDetectCalls ⟨0⟩ [⟨[], 0, 0, ⟨.fail, .initFail⟩⟩]).frame_count
         = (0 + 1) % u32Mod) ∧
      ((1 % u32Mod) % 60 ≠ 0 ∧
        detect_sensitive_data ⟨0⟩ [] 0 0 ⟨.fail, .initFail⟩ = (⟨1 % u32Mod⟩, [])) ∧
      (((59 + 1) % u32Mod) % 60 = 0 ∧ (rgba_to_grayscale [0, 0, 0, 0]).length = 1 * 1 ∧
        detect_sensitive_data ⟨59⟩ [0, 0, 0, 0] 1 1 ⟨.ok, .extractedText []⟩
          = (⟨(59 + 1) % u32Mod⟩, detectText []))) :=
  ⟨⟨by decide,
    duty_cycle_every_60th_call_wrapped.1 ⟨0⟩ [⟨[], 0, 0, ⟨.fail, .initFail⟩⟩] (by decide)⟩,
   ⟨by decide,
    duty_cycle_every_60th_call_wrapped.2.1 ⟨0⟩ [] 0 0 ⟨.fail, .initFail⟩ (by decide)⟩,
   ⟨by decide, by decide,
    duty_cycle_every_60th_call_wrapped.2.2 ⟨59⟩ [0, 0, 0, 0] 1 1 [] (by decide) (by decide)⟩⟩

/-! ## C9 — window-event error dispatch -/

/-- C9: when `update_and_render` returns an error on a tick,
`App::window_event` (src/main.rs lines 89-114) dispatches it as follows: a
surface-lost error calls `safe_mirror.resize(safe_mirror.size())` — surface
reconfiguration at the current size — and, because a redraw is requested
unconditionally afterwards, the render is retried on the next tick; an
out-of-memory error calls `event_loop.exit()`, terminating the application;
any other error is only logged and the loop continues; and
`window.request_redraw()` runs for every event whenever the window exists. -/
theorem window_event_error_dispatch (sz : Nat × Nat) :
    (window_event ⟨true, true, sz⟩ .redrawRequested .surfaceLost
       = ⟨some sz, false, false, true⟩)
  ∧ (window_event ⟨true, true, sz⟩ .redrawRequested .outOfMemory
       = ⟨none, true, false, true⟩)
  ∧ (window_event ⟨true, true, sz⟩ .redrawRequested .otherError
       = ⟨none, false, true, true⟩)
  ∧ (∀ (ctx : WindowCtx) (ev : WEvent) (res : RenderResult),
       ctx.hasWindow = true → (window_event ctx ev res).redrawRequested = true) := by
  refine ⟨rfl, rfl, rfl, ?_⟩
  intro ctx ev res hw
  unfold window_event
  rw [if_pos hw]

theorem window_event_error_dispatch_witness :
    (window_event ⟨true, true, (800, 600)⟩ .redrawRequested .surfaceLost
       = ⟨some (800, 600), false, false, true⟩) ∧
    ((⟨true, true, (800, 600)⟩ : WindowCtx).hasWindow = true ∧
      (window_event ⟨true, true, (800, 600)⟩ .closeRequested .ok).redrawRequested = true) :=
  ⟨(window_event_error_dispatch (800, 600)).1,
   ⟨rfl, (window_event_error_dispatch (800, 600)).2.2.2 ⟨true, true, (800, 600)⟩
      .closeRequested .ok rfl⟩⟩

/-! ## C10 — capture and geometry fallbacks -/

/-- C10: a tick with no captured frame behaves exactly as a tick that
captured the renderer's deterministic synthetic test pattern, and a tick
whose display-resolution query failed behaves exactly as a tick that
observed the fixed default resolution 1920×1080 — in both cases the tick
runs to completion through cache update, redaction and hand-off
(`update_and_render` is a total function of its per-tick inputs)
(src/safe_mirror.rs lines 79-95). -/
theorem tick_fallbacks_frame_and_resolution (st : MirrorState) (inp : TickInput) :
    (inp.frame = none →
       update_and_render st inp
         = update_and_render st { inp with frame := some st.test_pattern })
  ∧ (inp.resolution = none →
       update_and_render st inp
         = update_and_render st { inp with resolution := some ⟨1920, 1080⟩ }) := by
  obtain ⟨f, r, e⟩ := inp
  constructor
  · intro h
    cases h
    rfl
  · intro h
    cases h
    rfl

theorem tick_fallbacks_frame_and_resolution_witness :
    ((⟨none, none, ⟨.fail, .initFail⟩⟩ : TickInput).frame = none ∧
      update_and_render sampleMirror ⟨none, none, ⟨.fail, .initFail⟩⟩
        = update_and_render sampleMirror ⟨some sampleMirror.test_pattern, none, ⟨.fail, .initFail⟩⟩) :=
  ⟨rfl, (tick_fallbacks_frame_and_resolution sampleMirror ⟨none, none, ⟨.fail, .initFail⟩⟩).1 rfl⟩

/-! ## Shared facts about detection output -/

/-- Every match the pattern-matching stage constructs carries the literal
confidence `0.8` and the zero rectangle (lines 154-162 of the source, with
the TODO for real tesseract bounding boxes at line 158). -/
theorem detectText_fields (t : List Char) (m : SensitiveMatch)
    (hm : m ∈ detectText t) :
    m.confidence = 0.8 ∧ m.x = 0 ∧ m.y = 0 ∧ m.width = 0 ∧ m.height = 0 := by
  simp only [detectText, matchesFor, List.mem_flatMap, List.mem_map] at hm
  obtain ⟨pr, -, q, -, rfl⟩ := hm
  exact ⟨rfl, rfl, rfl, rfl, rfl⟩

/-- The second component of `detect_sensitive_data` is always `[]` or
`detectText t` for the extracted text `t`. -/
theorem detect_sensitive_data_snd_cases (st : DetectorState) (rgba : List Nat)
    (w h : Nat) (env : OcrEnv) :
    (detect_sensitive_data st rgba w h env).2 = [] ∨
    ∃ t, env.tess = .extractedText t ∧
      (detect_sensitive_data st rgba w h env).2 = detectText t := by
  unfold detect_sensitive_data
  dsimp only
  split
  · exact .inl rfl
  · split
    · exact .inl rfl
    · split
      · exact .inl rfl
      · exact .inl rfl
      · exact .inl rfl
      · rename_i t heq
        exact .inr ⟨t, heq, rfl⟩

/-- Every match `detect_sensitive_data` ever returns has the fixed
confidence and the zero rectangle. -/
theorem detect_sensitive_data_match_fields (st : DetectorState) (rgba : List Nat)
    (w h : Nat) (env : OcrEnv) (m : SensitiveMatch)
    (hm : m ∈ (detect_sensitive_data st rgba w h env).2) :
    m.confidence = 0.8 ∧ m.x = 0 ∧ m.y = 0 ∧ m.width = 0 ∧ m.height = 0 := by
  rcases detect_sensitive_data_snd_cases st rgba w h env with hc | ⟨t, -, hc⟩
  · rw [hc] at hm
    cases hm
  · rw [hc] at hm
    exact detectText_fields t m hm

/-! ## C6 — failure paths return empty, rectangles well-formed -/

/-- C6: `detect_sensitive_data` is embedded as a total function (it cannot
raise for any frame buffer — empty, malformed or binary garbage — the
buffer-size mismatch of a malformed frame is the handled
`ImageBuffer::from_raw` failure); on every failure path (image save,
tesseract initialization, `set_image`, `get_text`) it returns the empty
match list rather than propagating the error; and every rectangle of every
match it ever returns is the zero rectangle, hence has finite, non-negative
coordinates (they are natural numbers equal to 0). -/
theorem detect_failure_paths_empty_and_rects_zero (st : DetectorState)
    (rgba : List Nat) (w h : Nat) (env : OcrEnv) :
    ((env.fsave = .fail ∨ env.tess = .initFail ∨ env.tess = .setImageFail ∨
        env.tess = .getTextFail) →
      (detect_sensitive_data st rgba w h env).2 = [])
  ∧ (∀ m ∈ (detect_sensitive_data st rgba w h env).2,
      m.x = 0 ∧ m.y = 0 ∧ m.width = 0 ∧ m.height = 0) := by
  constructor
  · intro hfail
    rcases detect_sensitive_data_snd_cases st rgba w h env with hc | ⟨t, htess, hc⟩
    · exact hc
    · -- with a successful extraction, the hypothesis forces the save to fail
      rcases hfail with hfs | ht | ht | ht
      · obtain ⟨s, hs⟩ :
            ∃ s, save_grayscale_as_png (rgba_to_grayscale rgba) w h env.fsave = .error s := by
          rw [hfs]
          unfold save_grayscale_as_png
          split
          · exact ⟨_, rfl⟩
          · exact ⟨_, rfl⟩
        unfold detect_sensitive_data
        dsimp only
        split
        · rfl
        · rw [hs]
      all_goals rw [ht] at htess; cases htess
  · intro m hm
    exact (detect_sensitive_data_match_fields st rgba w h env m hm).2

theorem detect_failure_paths_empty_and_rects_zero_witness :
    (((⟨.ok, .getTextFail⟩ : OcrEnv).fsave = .fail ∨
        (⟨.ok, .getTextFail⟩ : OcrEnv).tess = .initFail ∨
        (⟨.ok, .getTextFail⟩ : OcrEnv).tess = .setImageFail ∨
        (⟨.ok, .getTextFail⟩ : OcrEnv).tess = .getTextFail) ∧
      (detect_sensitive_data ⟨59⟩ [7, 7, 7, 7] 1 1 ⟨.ok, .getTextFail⟩).2 = []) :=
  ⟨by decide,
   (detect_failure_paths_empty_and_rects_zero ⟨59⟩ [7, 7, 7, 7] 1 1 ⟨.ok, .getTextFail⟩).1
     (by decide)⟩

/-! ## Pointwise characterization of the redaction applier -/

theorem paintFrom_get? (m : SensitiveMatch) (width height : Nat)
    (buf : List Nat) :
    ∀ (i k : Nat),
      (paintFrom m width height i buf).get? k =
        (buf.get? k).map (fun b =>
          if coveredByte m width height (i + k) then blockByte (i + k) else b) := by
  induction buf with
  | nil => intro i k; rfl
  | cons b rest ih =>
    intro i k
    cases k with
    | zero => rfl
    | succ k =>
      have hstep : (paintFrom m width height i (b :: rest)).get? (k + 1)
          = (paintFrom m width height (i + 1) rest).get? k := rfl
      rw [hstep, ih (i + 1) k]
      have harith : i + 1 + k = i + (k + 1) := by omega
      rw [harith]
      rfl

theorem apply_redaction_get? (width height : Nat) (ms : List SensitiveMatch) :
    ∀ (buf : List Nat) (k : Nat),
      (apply_redaction buf width height ms).get? k =
        (buf.get? k).map (fun b =>
          if ms.any (fun m => coveredByte m width height k) then blockByte k else b) := by
  induction ms with
  | nil =>
    intro buf k
    show buf.get? k = _
    cases buf.get? k with
    | none => rfl
    | some b => simp
  | cons m ms ih =>
    intro buf k
    show (apply_redaction (paintFrom m width height 0 buf) width height ms).get? k = _
    rw [ih, paintFrom_get?]
    rw [Nat.zero_add]
    cases hbk : buf.get? k with
    | none => rfl
    | some b =>
      simp only [Option.map_some', List.any_cons]
      by_cases hms : ms.any (fun m => coveredByte m width height k) = true
      · simp [hms]
      · rw [Bool.not_eq_true] at hms
        simp [hms]

/-! ## C7 — idempotence of the redaction applier -/

/-- C7: applying the redaction applier twice with the same `MatchSet` to a
frame buffer produces the buffer of applying it once, for every buffer,
resolution and `MatchSet` (overlapping rectangles included): every byte is
either overwritten with the same fixed block color both times or untouched
both times.  (`apply_redaction` is modelled from spec §4.4; its definition
is absent from the provided sources.) -/
theorem apply_redaction_idempotent (buffer : List Nat) (width height : Nat)
    (ms : List SensitiveMatch) :
    apply_redaction (apply_redaction buffer width height ms) width height ms
      = apply_redaction buffer width height ms := by
  apply List.ext_get?
  intro k
  rw [apply_redaction_get?, apply_redaction_get?]
  cases hbk : buffer.get? k with
  | none => rfl
  | some b =>
    simp only [Option.map_some']
    by_cases hcov : ms.any (fun m => coveredByte m width height k) = true
    · simp [hcov]
    · rw [Bool.not_eq_true] at hcov
      simp [hcov]

/-! ## C4 — zero rectangles make redaction a no-op -/

theorem coveredByte_of_width_zero (m : SensitiveMatch) (width height i : Nat)
    (hz : m.width = 0) : coveredByte m width height i = false := by
  unfold coveredByte
  split
  · rfl
  · dsimp only
    rw [hz, Nat.add_zero]
    by_cases h1 : min m.x width ≤ i / 4 % width
    · have h2 : ¬ (i / 4 % width < min m.x width) := by omega
      simp [h2]
    · simp [h1]

theorem paintFrom_of_width_zero (m : SensitiveMatch) (width height : Nat)
    (hz : m.width = 0) :
    ∀ (buf : List Nat) (i : Nat), paintFrom m width height i buf = buf := by
  intro buf
  induction buf with
  | nil => intro i; rfl
  | cons b rest ih =>
    intro i
    show (if coveredByte m width height i then blockByte i else b)
        :: paintFrom m width height (i + 1) rest = b :: rest
    rw [coveredByte_of_width_zero m width height i hz, ih (i + 1)]
    rfl

theorem apply_redaction_of_zero_rects (buffer : List Nat) (width height : Nat)
    (ms : List SensitiveMatch) (hz : ∀ m ∈ ms, m.width = 0 ∧ m.height = 0) :
    apply_redaction buffer width height ms = buffer := by
  induction ms generalizing buffer with
  | nil => rfl
  | cons m ms ih =>
    show apply_redaction (paintFrom m width height 0 buffer) width height ms = buffer
    rw [paintFrom_of_width_zero m width height (hz m (List.mem_cons_self m ms)).1]
    exact ih buffer (fun m' hm' => hz m' (List.mem_cons_of_mem m hm'))

/-- All cached rectangles are zero-sized. -/
def allZeroRect (ms : List SensitiveMatch) : Prop :=
  ∀ m ∈ ms, m.width = 0 ∧ m.height = 0

theorem tick_preserves_zero_rects (st : MirrorState) (inp : TickInput)
    (hz : allZeroRect st.cached_sensitive_matches) :
    allZeroRect (update_and_render st inp).1.cached_sensitive_matches
      ∧ (update_and_render st inp).2 = acquiredTexture st inp := by
  have hnew : allZeroRect (tick_new_matches st inp) := by
    intro m hm
    unfold tick_new_matches detector_step at hm
    revert hm
    cases st.sensitive_detector with
    | none => intro hm; cases hm
    | some d =>
      intro hm
      exact (detect_sensitive_data_match_fields d _ _ _ _ m hm).2.2.2
  have hcached : allZeroRect (update_and_render st inp).1.cached_sensitive_matches := by
    rw [update_cached_eq]
    split
    · exact hz
    · exact hnew
  refine ⟨hcached, ?_⟩
  show (if ((update_and_render st inp).1.cached_sensitive_matches).isEmpty
        then acquiredTexture st inp
        else match st.sensitive_detector with
          | some _ => apply_redaction (acquiredTexture st inp)
              (resolutionUsed inp).width (resolutionUsed inp).height
              (update_and_render st inp).1.cached_sensitive_matches
          | none => acquiredTexture st inp) = acquiredTexture st inp
  split
  · rfl
  · cases st.sensitive_detector with
    | none => rfl
    | some d => exact apply_redaction_of_zero_rects _ _ _ _ hcached

theorem runOutputs_of_zero_rects (L : List TickInput) :
    ∀ (st : MirrorState), allZeroRect st.cached_sensitive_matches →
      runOutputs st L = L.map (fun inp => inp.frame.getD st.test_pattern) := by
  induction L with
  | nil => intro st _; rfl
  | cons inp rest ih =>
    intro st hz
    have h := tick_preserves_zero_rects st inp hz
    show (update_and_render st inp).2 :: runOutputs (update_and_render st inp).1 rest = _
    rw [h.2, ih _ h.1, update_test_pattern_eq]
    rfl

/-- C4: every `SensitiveMatch` ever produced by `detect_sensitive_data` has
confidence exactly `0.8` and the zero bounding rectangle
`x = y = width = height = 0` (lines 154-162); a `MatchSet` of zero-area
rectangles makes the (spec-modelled) redaction applier the identity; and
consequently, along every run of render ticks from the freshly constructed
mirror — whose cache can therefore only ever hold zero-area matches — the
buffer handed to the presentation capability is pixel-for-pixel the
acquired texture: the redaction step never changes any pixel of any
frame. -/
theorem matches_zero_rect_and_redaction_noop :
    (∀ (st : DetectorState) (rgba : List Nat) (w h : Nat) (env : OcrEnv),
       ∀ m ∈ (detect_sensitive_data st rgba w h env).2,
         m.confidence = 0.8 ∧ m.x = 0 ∧ m.y = 0 ∧ m.width = 0 ∧ m.height = 0)
  ∧ (∀ (buffer : List Nat) (w h : Nat) (ms : List SensitiveMatch),
       (∀ m ∈ ms, m.width = 0 ∧ m.height = 0) →
       apply_redaction buffer w h ms = buffer)
  ∧ (∀ (d : Option DetectorState) (tp : List Nat) (L : List TickInput),
       runOutputs (initialMirror d tp) L = L.map (fun inp => inp.frame.getD tp)) :=
  ⟨fun st rgba w h env m hm => detect_sensitive_data_match_fields st rgba w h env m hm,
   fun buffer w h ms hz => apply_redaction_of_zero_rects buffer w h ms hz,
   fun d tp L => runOutputs_of_zero_rects L (initialMirror d tp) (fun _ hm => absurd hm (List.not_mem_nil _))⟩

theorem matches_zero_rect_and_redaction_noop_witness :
    (sampleCachedMatch ∈
        (detect_sensitive_data ⟨59⟩ [0, 0, 0, 0] 1 1 ⟨.ok, .extractedText "a@b.co".data⟩).2 ∧
      sampleCachedMatch.confidence = 0.8 ∧ sampleCachedMatch.x = 0 ∧
      sampleCachedMatch.y = 0 ∧ sampleCachedMatch.width = 0 ∧ sampleCachedMatch.height = 0) ∧
    ((∀ m ∈ [sampleCachedMatch], m.width = 0 ∧ m.height = 0) ∧
      apply_redaction [9, 9, 9, 9] 1 1 [sampleCachedMatch] = [9, 9, 9, 9]) := by
  have hd : (detect_sensitive_data ⟨59⟩ [0, 0, 0, 0] 1 1
      ⟨.ok, .extractedText "a@b.co".data⟩).2 = [sampleCachedMatch] := rfl
  have hmem : sampleCachedMatch ∈
      (detect_sensitive_data ⟨59⟩ [0, 0, 0, 0] 1 1 ⟨.ok, .extractedText "a@b.co".data⟩).2 := by
    rw [hd]
    exact List.mem_cons_self _ _
  exact ⟨⟨hmem,
    matches_zero_rect_and_redaction_noop.1 ⟨59⟩ [0, 0, 0, 0] 1 1
      ⟨.ok, .extractedText "a@b.co".data⟩ sampleCachedMatch hmem⟩,
   ⟨by decide,
    matches_zero_rect_and_redaction_noop.2.1 [9, 9, 9, 9] 1 1 [sampleCachedMatch] (by decide)⟩⟩

/-! ## C5 — the literal transcript -/

/-- The spec's literal test transcript. -/
def sampleTranscript : List Char :=
  "user@example.com 4532-1234-5678-9012 192.168.1.1 sk_test_abc123def456789012".data

def emailTranscriptMatch : SensitiveMatch :=
  ⟨.Email, "user@example.com", 0.8, 0, 0, 0, 0⟩

def creditCardTranscriptMatch : SensitiveMatch :=
  ⟨.CreditCard, "4532-1234-5678-9012", 0.8, 0, 0, 0, 0⟩

def ipTranscriptMatch : SensitiveMatch :=
  ⟨.IpAddress, "192.168.1.1", 0.8, 0, 0, 0, 0⟩

/-- C5 counterexample: pattern detection on the literal transcript produces
no match whatsoever of category `ApiKey` — in particular none with text
`"sk_test_abc123def456789012"`.  The ApiKey pattern
`\b(?:sk_|pk_|api_|key_|token_)[A-Za-z0-9]{20,}\b` requires at least 20
characters from `[A-Za-z0-9]` (underscore excluded) directly after the
prefix, and in `sk_test_abc123def456789012` the run after `sk_` stops at
the underscore of `test_` after only 4 characters. -/
theorem literal_transcript_no_apikey_match :
    (detectText sampleTranscript).filter
      (fun m => m.data_type == SensitiveDataType.ApiKey) = [] := by decide

/-- C5 (amended): running pattern detection on the literal transcript
yields exactly a match of category Email with text `user@example.com`, a
match of category CreditCard with text `4532-1234-5678-9012`, and a match
of category IpAddress with text `192.168.1.1` — and no match of category
ApiKey (the claimed ApiKey match cannot be produced by the source's ApiKey
pattern, see the counterexample). -/
theorem literal_transcript_matches :
    detectText sampleTranscript =
      [emailTranscriptMatch, creditCardTranscriptMatch, ipTranscriptMatch] := rfl

/-! ## C8 — output order, non-overlap, leftmost-first, no Password -/

/-- No position among the first `n` scan positions of `s` (with left
context `p`) admits a match of `r`. -/
def noMatchUpTo : Nat → Regex → Option Char → List Char → Bool
  | 0, _, _, _ => true
  | n + 1, r, p, s =>
    (firstMatch r p s).isNone &&
      (match s with
       | [] => true
       | c :: tail => noMatchUpTo n r (some c) tail)

/-- Every match the scan emits starts at or after the scan position. -/
theorem scanGo_start_ge (fuel : Nat) :
    ∀ (r : Regex) (p : Option Char) (s : List Char) (pos : Nat),
      ∀ q ∈ scanGo fuel r p s pos, pos ≤ q.1 := by
  induction fuel with
  | zero => intro r p s pos q hq; cases hq
  | succ n ih =>
    intro r p s pos q hq
    simp only [scanGo] at hq
    split at hq
    · split at hq
      · split at hq
        · rw [List.mem_singleton] at hq
          subst hq
          exact Nat.le_refl _
        · rcases List.mem_cons.mp hq with rfl | hmem
          · exact Nat.le_refl _
          · exact Nat.le_of_succ_le (ih _ _ _ _ q hmem)
      · rcases List.mem_cons.mp hq with rfl | hmem
        · exact Nat.le_refl _
        · exact Nat.le_trans (Nat.le_add_right _ _) (ih _ _ _ _ q hmem)
    · split at hq
      · cases hq
      · exact Nat.le_of_succ_le (ih _ _ _ _ q hq)

/-- The matches the scan emits are pairwise non-overlapping and ordered by
strictly increasing start position: a later match starts at or after the
end of an earlier one. -/
theorem scanGo_pairwise (fuel : Nat) :
    ∀ (r : Regex) (p : Option Char) (s : List Char) (pos : Nat),
      List.Pairwise (fun a b => a.1 + a.2.length ≤ b.1 ∧ a.1 < b.1)
        (scanGo fuel r p s pos) := by
  induction fuel with
  | zero => intro r p s pos; exact List.Pairwise.nil
  | succ n ih =>
    intro r p s pos
    simp only [scanGo]
    split
    · split
      · split
        · simp
        · refine List.Pairwise.cons ?_ (ih _ _ _ _)
          intro q hq
          have h1 := scanGo_start_ge n _ _ _ _ q hq
          refine ⟨?_, ?_⟩
          · show pos + List.length [] ≤ q.1
            simp only [List.length_nil]
            omega
          · show pos < q.1
            omega
      · rename_i c0 cs
        refine List.Pairwise.cons ?_ (ih _ _ _ _)
        intro q hq
        have h1 := scanGo_start_ge n _ _ _ _ q hq
        refine ⟨h1, ?_⟩
        show pos < q.1
        simp only [List.length_cons] at h1
        omega
    · split
      · exact List.Pairwise.nil
      · exact ih _ _ _ _

/-- Leftmost-first: the first match the scan reports is at the least
position at or after the scan position admitting any match — no earlier
position admits one. -/
theorem scanGo_leftmost (fuel : Nat) :
    ∀ (r : Regex) (p : Option Char) (s : List Char) (pos : Nat) (q : Nat × List Char)
      (l : List (Nat × List Char)),
      scanGo fuel r p s pos = q :: l → noMatchUpTo (q.1 - pos) r p s = true := by
  induction fuel with
  | zero => intro r p s pos q l h; cases h
  | succ n ih =>
    intro r p s pos q l heq
    simp only [scanGo] at heq
    split at heq
    · split at heq
      · split at heq
        · injection heq with h1 h2
          rw [← h1, Nat.sub_self]
          rfl
        · injection heq with h1 h2
          rw [← h1, Nat.sub_self]
          rfl
      · injection heq with h1 h2
        rw [← h1, Nat.sub_self]
        rfl
    · rename_i hfm
      split at heq
      · cases heq
      · rename_i c tail
        have hmem : q ∈ scanGo n r (some c) tail (pos + 1) := by
          rw [heq]
          exact List.mem_cons_self _ _
        have hge := scanGo_start_ge n _ _ _ _ q hmem
        have hrec := ih _ _ _ _ q l heq
        have harith : q.1 - pos = (q.1 - (pos + 1)) + 1 := by omega
        rw [harith]
        show ((firstMatch r p (c :: tail)).isNone
            && noMatchUpTo (q.1 - (pos + 1)) r (some c) tail) = true
        rw [hfm, hrec]
        rfl

/-- C8: on a detection tick, the returned match list is the concatenation
of the per-matcher match lists in the fixed catalog order Email,
CreditCard, SocialSecurityNumber (the spec's NationalId), PhoneNumber (the
spec's Phone), ApiKey, IpAddress, Url, BankAccount, with every match
carrying its own matcher's category — every matcher's matches are all
retained, with no cross-category suppression; within one matcher the
matches are pairwise non-overlapping and ordered leftmost-first in the
transcript (strictly increasing start positions, each starting at or after
the previous end, the first at the least matching position); and no match
of category Password is ever produced (the catalog registers no Password
pattern). -/
theorem detect_output_order_and_no_password (text : List Char) :
    (detectText text = (build_patterns.map (matchesFor text)).flatten
      ∧ build_patterns.map Prod.fst =
          [SensitiveDataType.Email, SensitiveDataType.CreditCard,
           SensitiveDataType.SocialSecurityNumber, SensitiveDataType.PhoneNumber,
           SensitiveDataType.ApiKey, SensitiveDataType.IpAddress,
           SensitiveDataType.Url, SensitiveDataType.BankAccount]
      ∧ ∀ pr ∈ build_patterns, ∀ m ∈ matchesFor text pr, m.data_type = pr.1)
  ∧ (∀ pr ∈ build_patterns,
       List.Pairwise (fun a b => a.1 + a.2.length ≤ b.1 ∧ a.1 < b.1)
         (find_iter pr.2 text)
       ∧ ∀ (q : Nat × List Char) (l : List (Nat × List Char)),
           find_iter pr.2 text = q :: l → noMatchUpTo q.1 pr.2 none text = true)
  ∧ (∀ m ∈ detectText text, m.data_type ≠ SensitiveDataType.Password) := by
  refine ⟨⟨rfl, rfl, ?_⟩, ?_, ?_⟩
  · intro pr hpr m hm
    simp only [matchesFor, List.mem_map] at hm
    obtain ⟨q, -, rfl⟩ := hm
    rfl
  · intro pr hpr
    constructor
    · exact scanGo_pairwise _ _ _ _ _
    · intro q l h
      have hlm := scanGo_leftmost (text.length + 1) pr.2 none text 0 q l h
      rwa [Nat.sub_zero] at hlm
  · intro m hm
    simp only [detectText, List.mem_flatMap] at hm
    obtain ⟨pr, hpr, hm⟩ := hm
    simp only [matchesFor, List.mem_map] at hm
    obtain ⟨q, -, rfl⟩ := hm
    simp only [build_patterns, List.mem_cons, List.mem_singleton, List.not_mem_nil,
      or_false] at hpr
    rcases hpr with rfl | rfl | rfl | rfl | rfl | rfl | rfl | rfl <;> simp

theorem detect_output_order_and_no_password_witness :
    emailTranscriptMatch ∈ detectText sampleTranscript ∧
    emailTranscriptMatch.data_type ≠ SensitiveDataType.Password ∧
    ((SensitiveDataType.Email, emailRegex) ∈ build_patterns ∧
      List.Pairwise (fun a b => a.1 + a.2.length ≤ b.1 ∧ a.1 < b.1)
        (find_iter emailRegex sampleTranscript)) := by
  have hd : detectText sampleTranscript
      = [emailTranscriptMatch, creditCardTranscriptMatch, ipTranscriptMatch] := rfl
  have hmem : emailTranscriptMatch ∈ detectText sampleTranscript := by
    rw [hd]
    exact List.mem_cons_self _ _
  have hbp : (SensitiveDataType.Email, emailRegex) ∈ build_patterns := by
    unfold build_patterns
    exact List.mem_cons_self _ _
  exact ⟨hmem,
    (detect_output_order_and_no_password sampleTranscript).2.2 emailTranscriptMatch hmem,
    hbp,
    ((detect_output_order_and_no_password sampleTranscript).2.1 _ hbp).1⟩

end CloakShare
